import Mathlib

/-!
A shallow embedding of the walrus fuzzing harness
(src/crates/fuzz/src/lib.rs): the test-case generator abstraction, the
stack-typed WAT synthesizer (WatGen), the differential oracle (run_one)
and the fuel-decay reduction loop (run), together with theorems settling
the specification's claims about them.

External collaborators (the text assembler wat2wasm, the reference
interpreter wasm-interp, and the walrus round trip) are modelled as a
record of fallible functions; the external small-state RNG is modelled as
a deterministic stream of draws, which is all the spec requires of it.
-/

namespace WalrusFuzz

/-- ValType from the source: the abstract operand stack's value types
(currently only I32). -/
inductive ValType
  | I32
deriving DecidableEq

/-- Modelled from the spec: the external small-state RNG
(rand::rngs::SmallRng is an external crate). Sections 4.2 and 4.3 of the
spec require only a deterministic sequence of draws derived from the
seed, so the RNG is a stream of naturals together with a position. -/
structure Rng where
  seq : Nat → Nat
  idx : Nat

/-- rng.gen_range(lo, hi): a draw in the half-open range from lo to hi,
advancing the RNG by one position. -/
def Rng.genRange (r : Rng) (lo hi : Nat) : Nat × Rng :=
  (lo + r.seq r.idx % (hi - lo), { r with idx := r.idx + 1 })

/-- The signed 32-bit value a raw draw denotes (two's complement). -/
def i32val (n : Nat) : Int :=
  if n % 2 ^ 32 < 2 ^ 31 then ((n % 2 ^ 32 : Nat) : Int)
  else ((n % 2 ^ 32 : Nat) : Int) - 2 ^ 32

/-- rng.gen::<i32>(): a draw of a signed 32-bit integer, advancing the
RNG by one position. -/
def Rng.genI32 (r : Rng) : Int × Rng :=
  (i32val (r.seq r.idx), { r with idx := r.idx + 1 })

/-- Modelled from the spec: SmallRng::seed_from_u64 turns the 64-bit seed
into a deterministic draw stream. The concrete mixing function is a
stand-in for the external rand crate's algorithm; only its determinism
matters to the spec. -/
def seedStream (seed : Nat) (i : Nat) : Nat :=
  (2862933555777941757 * (seed + i) + 3037000493) % 2 ^ 64

/-- WatGen from the source: the stack-based WAT synthesizer state, an RNG
plus the WAT text built so far. -/
structure WatGen where
  rng : Rng
  wat : String

/-- The fixed module prologue pushed by WatGen::prefix. -/
def watPre : String :=
  "(module\n  (import \"host\" \"print\" (func (param i32) (result i32)))\n  (func (export \"$f\")\n"

/-- The fixed closing text pushed by WatGen::suffix. -/
def watSuf : String := "  ))"

/-- WatGen::prefix (renamed, the source name is a Lean keyword): emit the
fixed module prologue. -/
def WatGen.preamble (g : WatGen) : WatGen :=
  { g with wat := g.wat ++ watPre }

/-- WatGen::suffix (renamed to match the prologue): emit the fixed
closing text. -/
def WatGen.postamble (g : WatGen) : WatGen :=
  { g with wat := g.wat ++ watSuf }

/-- WatGen::instr_imm: emit one instruction, four spaces of indentation,
then the operator, then each immediate preceded by a space, then a
newline. -/
def WatGen.instr_imm (g : WatGen) (operator : String) (immediates : List String) : WatGen :=
  { g with wat :=
      immediates.foldl (fun w imm => w ++ " " ++ imm) (g.wat ++ "    " ++ operator) ++ "\n" }

/-- WatGen::instr: emit one instruction with no immediates. -/
def WatGen.instr (g : WatGen) (operator : String) : WatGen :=
  g.instr_imm operator []

/-- WatGen::op_0: an arity-0 operator; with equal probability push a
random signed 32-bit constant or emit a nop. -/
def WatGen.op_0 (g : WatGen) (stack : List ValType) : WatGen × List ValType :=
  let d := g.rng.genRange 0 2
  let g1 : WatGen := { g with rng := d.2 }
  if d.1 = 0 then
    let v := g1.rng.genI32
    let g2 : WatGen := { g1 with rng := v.2 }
    (g2.instr_imm ("i32.const") [toString v.1], ValType.I32 :: stack)
  else
    (g1.instr ("nop"), stack)

/-- WatGen::op_1: an arity-1 operator applied to the popped operand; with
equal probability drop it, or replace it via i32.popcnt (pushing the
result back). -/
def WatGen.op_1 (g : WatGen) (_operand : ValType) (stack : List ValType) :
    WatGen × List ValType :=
  let d := g.rng.genRange 0 2
  let g1 : WatGen := { g with rng := d.2 }
  if d.1 = 0 then
    (g1.instr ("drop"), stack)
  else
    (g1.instr ("i32.popcnt"), ValType.I32 :: stack)

/-- WatGen::op_2: an arity-2 operator combining the two popped operands
via i32.add or i32.mul, pushing one result. -/
def WatGen.op_2 (g : WatGen) (_a _b : ValType) (stack : List ValType) :
    WatGen × List ValType :=
  let d := g.rng.genRange 0 2
  let g1 : WatGen := { g with rng := d.2 }
  if d.1 = 0 then
    (g1.instr ("i32.add"), ValType.I32 :: stack)
  else
    (g1.instr ("i32.mul"), ValType.I32 :: stack)

/-- WatGen::op: draw an arity in the clamped range
[0, min 3 (stack.length + 1)) and dispatch on it; none models a panic
(a pop().unwrap() on a too-short stack, or the unreachable arm). -/
def WatGen.op (g : WatGen) (stack : List ValType) : Option (WatGen × List ValType) :=
  let d := g.rng.genRange 0 (min 3 (stack.length + 1))
  let g1 : WatGen := { g with rng := d.2 }
  if d.1 = 0 then
    some (g1.op_0 stack)
  else if d.1 = 1 then
    match stack with
    | [] => none
    | v :: rest => some (g1.op_1 v rest)
  else if d.1 = 2 then
    match stack with
    | a :: b :: rest => some (g1.op_2 a b rest)
    | _ => none
  else none

/-- The fuel-times loop inside WatGen::gen_instructions: one op per unit
of fuel, followed by a call to the host import whenever the abstract
stack is non-empty. -/
def WatGen.genLoop : WatGen → List ValType → Nat → Option (WatGen × List ValType)
  | g, stack, 0 => some (g, stack)
  | g, stack, n + 1 =>
    match g.op stack with
    | none => none
    | some gs =>
      let g1 := if gs.2.isEmpty then gs.1 else gs.1.instr ("call 0")
      WatGen.genLoop g1 gs.2 n

/-- The cleanup phase of WatGen::gen_instructions: each residual value on
the abstract stack is drained with a call to the host import followed by
a drop. The drained stack is returned so its emptiness can be stated. -/
def WatGen.cleanup : WatGen → List ValType → WatGen × List ValType
  | g, [] => (g, [])
  | g, _ :: rest => WatGen.cleanup ((g.instr ("call 0")).instr ("drop")) rest

/-- The text the cleanup phase emits for a given number of residual
values. -/
def cleanupText : Nat → String
  | 0 => ""
  | n + 1 => "    call 0\n    drop\n" ++ cleanupText n

/-- WatGen::gen_instructions: assert fuel > 0 (none models the panic),
run the loop on an initially empty abstract stack, then the cleanup
phase. -/
def WatGen.gen_instructions (g : WatGen) (fuel : Nat) : Option WatGen :=
  if fuel = 0 then none
  else
    match WatGen.genLoop g [] fuel with
    | none => none
    | some gs => some (WatGen.cleanup gs.1 gs.2).1

/-- WatGen::generate, with the RNG's draw stream made explicit: the
prologue, fuel instructions plus cleanup, then the closing text. -/
def WatGen.generateWith (seq : Nat → Nat) (fuel : Nat) : Option String :=
  let g : WatGen := { rng := { seq := seq, idx := 0 }, wat := "" }
  match (g.preamble).gen_instructions fuel with
  | none => none
  | some g1 => some g1.postamble.wat

/-- WatGen::generate: the draw stream is derived deterministically from
the seed. -/
def WatGen.generate (seed fuel : Nat) : Option String :=
  WatGen.generateWith (seedStream seed) fuel

/-- FailingTestCase from the source: the WAT text, the traces before and
after the round trip, and the generator's name. -/
structure FailingTestCase where
  wat : String
  expected : String
  actual : String
  generator : String
deriving DecidableEq

/-- The failure::Error values the harness produces: tooling failures from
external collaborators, the FailingTestCase divergence, and the
with_context wrapper used in run. -/
inductive FuzzError
  | tooling (msg : String)
  | failing (tc : FailingTestCase)
  | ctx (msg : String) (e : FuzzError)
deriving DecidableEq

/-- The TestCaseGenerator capability: a name, whether interpretation is
meaningful for its outputs, and the deterministic generation function. -/
structure Generator where
  NAME : String
  SHOULD_INTERPRET : Bool
  generate : Nat → Nat → String

/-- The external collaborators: the text assembler, the reference
interpreter, and the walrus round trip, each fallible. Wasm binaries are
byte lists. -/
structure Externals where
  wat2wasm : String → Except String (List Nat)
  wasm_interp : List Nat → Except String String
  walrus_round_trip : List Nat → Except String (List Nat)

/-- Config from the source: the generator, the fuel level and the timeout
(the scratch file is subsumed into the external collaborators). -/
structure Config where
  gen : Generator
  fuel : Nat
  timeout : Nat

/-- Config::DEFAULT_FUEL. -/
def Config.DEFAULT_FUEL : Nat := 64

/-- Config::DEFAULT_TIMEOUT_SECS. -/
def Config.DEFAULT_TIMEOUT_SECS : Nat := 5

/-- Config::new. -/
def Config.new (g : Generator) : Config :=
  { gen := g, fuel := Config.DEFAULT_FUEL, timeout := Config.DEFAULT_TIMEOUT_SECS }

/-- Config::set_fuel: asserts fuel > 0 (none models the assertion
failure), then sets the fuel field, leaving the rest unchanged. -/
def Config.set_fuel (c : Config) (fuel : Nat) : Option Config :=
  if fuel = 0 then none else some { c with fuel := fuel }

/-- Config::wat2wasm: write the text to the scratch file and assemble it
(both folded into the external assembler call). -/
def Config.wat2wasm (_c : Config) (ext : Externals) (wat : String) :
    Except FuzzError (List Nat) :=
  match ext.wat2wasm wat with
  | Except.ok w => Except.ok w
  | Except.error m => Except.error (FuzzError.tooling m)

/-- Config::interp: run the reference interpreter only when the generator
says interpretation is meaningful; otherwise the trace is the empty
string and the interpreter is not consulted. -/
def Config.interp (c : Config) (ext : Externals) (wasm : List Nat) :
    Except FuzzError String :=
  if c.gen.SHOULD_INTERPRET then
    match ext.wasm_interp wasm with
    | Except.ok out => Except.ok out
    | Except.error m => Except.error (FuzzError.tooling m)
  else Except.ok ("")

/-- Config::round_trip_through_walrus: the transform under test, parse
plus re-serialize, as an external collaborator. -/
def Config.round_trip_through_walrus (_c : Config) (ext : Externals) (wasm : List Nat) :
    Except FuzzError (List Nat) :=
  match ext.walrus_round_trip wasm with
  | Except.ok w => Except.ok w
  | Except.error m => Except.error (FuzzError.tooling m)

/-- Config::run_one: assemble, interpret, round trip, interpret again,
and succeed exactly when the two traces are identical strings; otherwise
fail with a FailingTestCase carrying the source text, both traces and the
generator's name. -/
def Config.run_one (c : Config) (ext : Externals) (wat : String) :
    Except FuzzError Unit := do
  let wasm ← c.wat2wasm ext wat
  let expected ← c.interp ext wasm
  let walrus_wasm ← c.round_trip_through_walrus ext wasm
  let actual ← c.interp ext walrus_wasm
  if expected = actual then
    return ()
  else
    Except.error (FuzzError.failing
      { wat := wat, expected := expected, actual := actual, generator := c.gen.NAME })

/-- The fuel update applied on a failing iteration of Config::run:
fuel -= fuel / 10. -/
def fuelUpdate (fuel : Nat) : Nat := fuel - fuel / 10

/-- The mutable state of the loop in Config::run: the current fuel, the
current seed, the last known failure, how many fresh thread_rng seeds
have been drawn, and an iteration counter used to model the wall
clock. -/
structure RunState where
  fuel : Nat
  seed : Nat
  failing : Option FuzzError
  rngIdx : Nat
  iter : Nat
deriving DecidableEq

/-- One loop iteration of Config::run either returns or continues with a
new state. -/
inductive StepRes
  | done (r : Except FuzzError Unit)
  | next (st : RunState)

/-- One iteration of the loop in Config::run: generate WAT for the
current seed and fuel, run the oracle once, and either return or
continue. fresh models the thread_rng seed stream and timedOut the
wall-clock deadline check at a given iteration. -/
def runStep (c : Config) (ext : Externals) (fresh : Nat → Nat) (timedOut : Nat → Bool)
    (st : RunState) : StepRes :=
  let wat := c.gen.generate st.seed st.fuel
  match c.run_one ext wat with
  | Except.ok _ =>
    match st.failing with
    | some e => StepRes.done (Except.error e)
    | none =>
      if timedOut st.iter then StepRes.done (Except.ok ())
      else
        StepRes.next { st with seed := fresh st.rngIdx, rngIdx := st.rngIdx + 1,
                               iter := st.iter + 1 }
  | Except.error e =>
    let e1 := FuzzError.ctx ("wat = " ++ wat) e
    if 1 < st.fuel then
      StepRes.next { st with failing := some e1, fuel := fuelUpdate st.fuel,
                             iter := st.iter + 1 }
    else
      StepRes.done (Except.error e1)

/-- Run the loop of Config::run for at most gas iterations; none means
the loop was still running after gas iterations. -/
def runAux (c : Config) (ext : Externals) (fresh : Nat → Nat) (timedOut : Nat → Bool) :
    Nat → RunState → Option (Except FuzzError Unit)
  | 0, _ => none
  | gas + 1, st =>
    match runStep c ext fresh timedOut st with
    | StepRes.done r => some r
    | StepRes.next st1 => runAux c ext fresh timedOut gas st1

/-- Config::run: the initial seed is drawn from thread_rng, the failure
slot starts empty, and fuel starts at the configured level. -/
def Config.run (c : Config) (ext : Externals) (fresh : Nat → Nat) (timedOut : Nat → Bool)
    (gas : Nat) : Option (Except FuzzError Unit) :=
  runAux c ext fresh timedOut gas
    { fuel := c.fuel, seed := fresh 0, failing := none, rngIdx := 1, iter := 0 }

/-- The WatGen generator packaged for the harness. Its generate panics
only at fuel = 0 (where getD supplies a default; the harness keeps fuel
at least 1). -/
def watGenG : Generator :=
  { NAME := "WatGen", SHOULD_INTERPRET := true,
    generate := fun seed fuel => (WatGen.generate seed fuel).getD ("") }

/-- Modelled from the spec: the WasmOptTtf generator shells out to the
external wasm-opt tool in a retry loop, which is not modelled; for the
claims only its NAME and its SHOULD_INTERPRET = false matter. -/
def wasmOptTtfG : Generator :=
  { NAME := "WasmOptTtf", SHOULD_INTERPRET := false, generate := fun _ _ => ("") }

/-- A tiny generator used for concrete witness scenarios of the harness
loop (the loop's control flow is independent of the generated text). -/
def constG : Generator :=
  { NAME := "G", SHOULD_INTERPRET := true, generate := fun _ _ => ("w") }

/-- A harness configuration over the tiny generator, fuel 10. -/
def cfgW : Config := { gen := constG, fuel := 10, timeout := 5 }

/-- Externals whose round trip always changes behavior: every program
assembles to the buffer [0], the round trip rewrites it to [1], and the
interpreter gives the two buffers different traces, so run_one diverges
on every input. -/
def divergeExt : Externals :=
  { wat2wasm := fun _ => Except.ok [0],
    wasm_interp := fun w => Except.ok (if w = [0] then ("0") else ("1")),
    walrus_round_trip := fun _ => Except.ok [1] }

/-- Externals whose round trip is the identity and whose traces always
agree, so run_one succeeds on every input. -/
def okExt : Externals :=
  { wat2wasm := fun _ => Except.ok [0],
    wasm_interp := fun _ => Except.ok (""),
    walrus_round_trip := fun w => Except.ok w }

/-- The harness configuration of the shrink-termination scenario: the
WatGen generator with starting fuel 10. -/
def cfgC2 : Config := { gen := watGenG, fuel := 10, timeout := 5 }

/-- The fresh-seed stream used in concrete witness scenarios. -/
def freshW : Nat → Nat := fun i => 100 + i

/-- A concrete loop state used in witness scenarios: fuel 10, no failure
recorded yet. -/
def stW0 : RunState := { fuel := 10, seed := 5, failing := none, rngIdx := 1, iter := 0 }

/-- The successor of stW0 under a succeeding iteration that is not timed
out: a fresh seed is drawn. -/
def stW1 : RunState := { fuel := 10, seed := 101, failing := none, rngIdx := 2, iter := 1 }

/-- The divergence error a run of cfgW against divergeExt records. -/
def errW : FuzzError :=
  FuzzError.ctx ("wat = w") (FuzzError.failing
    { wat := "w", expected := "0", actual := "1", generator := "G" })

/-- The successor of stW0 under a failing iteration: same seed, fuel
updated, failure recorded. -/
def stW2 : RunState :=
  { fuel := 9, seed := 5, failing := some errW, rngIdx := 1, iter := 1 }

/-- A concrete loop state at fuel 9 with no failure recorded. -/
def stW9 : RunState := { fuel := 9, seed := 5, failing := none, rngIdx := 1, iter := 0 }

/-- The successor of stW9 under a failing iteration: the fuel update
leaves fuel at 9. -/
def stW9x : RunState :=
  { fuel := 9, seed := 5, failing := some errW, rngIdx := 1, iter := 1 }

/-- The function body the spec's balanced-program scenario claims for
fuel 1 with the push-constant branch, written from the spec's words: the
constant, then a cleanup call 0 and drop, and nothing else. -/
def specBalancedBody (n : Int) : String :=
  "    i32.const " ++ toString n ++ "\n    call 0\n    drop\n"

/-- The function body the code actually produces for fuel 1 with the
push-constant branch: the constant, the per-instruction call 0 emitted
because the constant leaves a residual value, then the cleanup call 0 and
drop. -/
def codeBalancedBody (n : Int) : String :=
  "    i32.const " ++ toString n ++ "\n    call 0\n    call 0\n    drop\n"

/-! ### Helper lemmas -/

/-- A clamped draw stays strictly below the upper bound. -/
theorem genRange_lt (r : Rng) (n : Nat) (h : 0 < n) : (r.genRange 0 n).1 < n := by
  simpa [Rng.genRange] using Nat.mod_lt _ h

/-- WatGen::op never returns none: the clamped arity draw always leaves
enough values on the abstract stack for the pops. -/
theorem op_isSome (g : WatGen) (stack : List ValType) : (g.op stack).isSome := by
  unfold WatGen.op
  dsimp only
  set k := (g.rng.genRange 0 (min 3 (stack.length + 1))).1 with hk
  have hlt : k < min 3 (stack.length + 1) :=
    genRange_lt g.rng (min 3 (stack.length + 1)) (by omega)
  by_cases h0 : k = 0
  · simp [h0]
  · by_cases h1 : k = 1
    · have hlen : 1 ≤ stack.length := by omega
      rcases stack with _ | ⟨v, rest⟩
      · simp at hlen
      · simp [h0, h1]
    · by_cases h2 : k = 2
      · have hlen : 2 ≤ stack.length := by omega
        rcases stack with _ | ⟨v, rest⟩
        · simp at hlen
        · rcases rest with _ | ⟨w, rest2⟩
          · simp at hlen
          · simp [h0, h1, h2]
      · omega

/-- The instruction loop of gen_instructions never panics. -/
theorem genLoop_isSome : ∀ (fuel : Nat) (g : WatGen) (stack : List ValType),
    (WatGen.genLoop g stack fuel).isSome := by
  intro fuel
  induction fuel with
  | zero => intro g stack; simp [WatGen.genLoop]
  | succ n ih =>
    intro g stack
    have h := op_isSome g stack
    unfold WatGen.genLoop
    rcases hop : g.op stack with _ | gs
    · rw [hop] at h; simp at h
    · simp only [hop]
      exact ih _ _

/-- Generation from any draw stream succeeds whenever fuel is at least
one. -/
theorem generateWith_isSome (seq : Nat → Nat) (fuel : Nat) (h : 1 ≤ fuel) :
    (WatGen.generateWith seq fuel).isSome := by
  unfold WatGen.generateWith WatGen.gen_instructions
  dsimp only
  rw [if_neg (by omega)]
  have hg := genLoop_isSome fuel ((WatGen.mk { seq := seq, idx := 0 } "").preamble) []
  rcases hgl : WatGen.genLoop ((WatGen.mk { seq := seq, idx := 0 } "").preamble) [] fuel
    with _ | gs
  · rw [hgl] at hg; simp at hg
  · simp [hgl]

/-- The text two consecutive plain instructions append. -/
theorem wat_two_instr (g : WatGen) (o1 o2 : String) :
    ((g.instr o1).instr o2).wat = g.wat ++ ("    " ++ (o1 ++ ("\n    " ++ (o2 ++ "\n")))) := by
  simp [WatGen.instr, WatGen.instr_imm, String.append_assoc]

/-- The cleanup phase drains the whole abstract stack, emitting a call 0
and a drop for each residual value. -/
theorem cleanup_spec : ∀ (stack : List ValType) (g : WatGen),
    (WatGen.cleanup g stack).2 = [] ∧
    (WatGen.cleanup g stack).1.wat = g.wat ++ cleanupText stack.length := by
  intro stack
  induction stack with
  | nil => intro g; exact ⟨rfl, (String.append_empty g.wat).symm⟩
  | cons v rest ih =>
    intro g
    refine ⟨(ih _).1, ?_⟩
    show (WatGen.cleanup ((g.instr ("call 0")).instr ("drop")) rest).1.wat = _
    rw [(ih _).2, wat_two_instr]
    have hX : ("    " : String) ++ ("call 0" ++ ("\n    " ++ ("drop" ++ "\n"))) =
        "    call 0\n    drop\n" := rfl
    rw [hX, String.append_assoc]
    rfl

/-! ### Claim theorems -/

/-- C4: stack safety of the WAT synthesizer: every arity draw is clamped
strictly below min 3 (stack.length + 1); WatGen::op never panics, on any
state (the pops always have at least the drawn arity available);
generation at fuel at least 1 succeeds; and the cleanup phase drains
every residual value with a call followed by a drop, leaving the abstract
stack empty. -/
theorem watgen_stack_safety (seed fuel : Nat) (h : 1 ≤ fuel) :
    (∀ (r : Rng) (stack : List ValType),
        (r.genRange 0 (min 3 (stack.length + 1))).1 < min 3 (stack.length + 1)) ∧
    (∀ (g : WatGen) (stack : List ValType), (g.op stack).isSome) ∧
    (WatGen.generate seed fuel).isSome ∧
    (∀ (g : WatGen) (stack : List ValType),
        (WatGen.cleanup g stack).2 = [] ∧
        (WatGen.cleanup g stack).1.wat = g.wat ++ cleanupText stack.length) :=
  ⟨fun r _stack => genRange_lt r _ (by omega),
   fun g stack => op_isSome g stack,
   generateWith_isSome (seedStream seed) fuel h,
   fun g stack => cleanup_spec stack g⟩

/-- Witness for C4 at seed 0 and fuel 1. -/
theorem watgen_stack_safety_witness :
    (∀ (r : Rng) (stack : List ValType),
        (r.genRange 0 (min 3 (stack.length + 1))).1 < min 3 (stack.length + 1)) ∧
    (∀ (g : WatGen) (stack : List ValType), (g.op stack).isSome) ∧
    (WatGen.generate 0 1).isSome ∧
    (∀ (g : WatGen) (stack : List ValType),
        (WatGen.cleanup g stack).2 = [] ∧
        (WatGen.cleanup g stack).1.wat = g.wat ++ cleanupText stack.length) :=
  watgen_stack_safety 0 1 (by omega)

/-- C1: the claimed strict decrease is false of the code. The shrink
update fuel - fuel / 10 is the identity for fuel values 2 and 9 (integer
division makes it the identity on all of 2..9), so fuel does not strictly
decrease on every failing iteration: a loop that reaches fuel 9 with a
persistent failure steps from fuel 9 back to fuel 9, forever. Only from
10 upward does the update decrease. -/
theorem fuel_update_not_strictly_decreasing :
    fuelUpdate 9 = 9 ∧ fuelUpdate 2 = 2 ∧ fuelUpdate 10 = 9 ∧
    runStep cfgW divergeExt freshW (fun _ => false) stW9 = StepRes.next stW9x :=
  ⟨rfl, rfl, rfl, rfl⟩

/-- C3: generation is deterministic: the generated text depends only on
the seed and the fuel. Two RNG instances with identical draw streams give
byte-identical output, and repeated calls at the same seed and fuel
agree. -/
theorem generate_deterministic :
    (∀ (s1 s2 : Nat → Nat) (fuel : Nat), (∀ i, s1 i = s2 i) →
        WatGen.generateWith s1 fuel = WatGen.generateWith s2 fuel) ∧
    (∀ seed fuel, WatGen.generate seed fuel = WatGen.generate seed fuel) := by
  refine ⟨fun s1 s2 fuel h => ?_, fun seed fuel => rfl⟩
  rw [funext h]

/-- Witness for C3: two extensionally equal draw streams at fuel 2. -/
theorem generate_deterministic_witness :
    WatGen.generateWith (fun i => i) 2 = WatGen.generateWith (fun i => 0 + i) 2 :=
  generate_deterministic.1 (fun i => i) (fun i => 0 + i) 2 (fun i => (Nat.zero_add i).symm)

/-- C9: Config::set_fuel fails fast exactly on fuel = 0 (the assertion)
and otherwise returns the configuration with only the fuel field
updated. -/
theorem set_fuel_spec (c : Config) :
    c.set_fuel 0 = none ∧
    (∀ fuel, 0 < fuel → c.set_fuel fuel = some { c with fuel := fuel }) := by
  refine ⟨rfl, fun fuel h => ?_⟩
  unfold Config.set_fuel
  rw [if_neg (by omega)]

/-- Witness for C9 at the default configuration and fuel 7. -/
theorem set_fuel_spec_witness :
    (Config.new watGenG).set_fuel 0 = none ∧
    (Config.new watGenG).set_fuel 7 = some { Config.new watGenG with fuel := 7 } :=
  ⟨(set_fuel_spec (Config.new watGenG)).1,
   (set_fuel_spec (Config.new watGenG)).2 7 (by omega)⟩

/-- C5: oracle soundness of run_one: when assembly, both
interpretations and the round trip succeed, run_one succeeds exactly when
the two traces are identical strings, and on divergence the
FailingTestCase carries the input text, the two observed traces
unmodified, and the generator's name. -/
theorem run_one_oracle_sound (c : Config) (ext : Externals) (wat : String)
    (wasm rt : List Nat) (expected actual : String)
    (h1 : ext.wat2wasm wat = Except.ok wasm)
    (h2 : c.interp ext wasm = Except.ok expected)
    (h3 : ext.walrus_round_trip wasm = Except.ok rt)
    (h4 : c.interp ext rt = Except.ok actual) :
    (c.run_one ext wat = Except.ok () ↔ expected = actual) ∧
    (expected ≠ actual →
      c.run_one ext wat = Except.error (FuzzError.failing
        { wat := wat, expected := expected, actual := actual, generator := c.gen.NAME })) := by
  by_cases he : expected = actual <;>
    simp [Config.run_one, Config.wat2wasm, Config.round_trip_through_walrus,
      bind, Except.bind, pure, Except.pure, h1, h2, h3, h4, he]

/-- C8: a generator with SHOULD_INTERPRET = false makes interp return
the empty string for every binary without consulting the interpreter, so
run_one can never fail with a FailingTestCase and succeeds whenever
assembly and the round trip succeed. -/
theorem no_interp_never_diverges (c : Config) (h : c.gen.SHOULD_INTERPRET = false) :
    (∀ (ext : Externals) (wasm : List Nat), c.interp ext wasm = Except.ok ("")) ∧
    (∀ (ext : Externals) (wat : String) (tc : FailingTestCase),
        c.run_one ext wat ≠ Except.error (FuzzError.failing tc)) ∧
    (∀ (ext : Externals) (wat : String) (wasm rt : List Nat),
        ext.wat2wasm wat = Except.ok wasm →
        ext.walrus_round_trip wasm = Except.ok rt →
        c.run_one ext wat = Except.ok ()) := by
  refine ⟨fun ext wasm => by simp [Config.interp, h], ?_, ?_⟩
  · intro ext wat tc
    unfold Config.run_one Config.wat2wasm Config.round_trip_through_walrus
    rcases ext.wat2wasm wat with m | wasm <;>
      simp [Config.interp, h, bind, Except.bind, pure, Except.pure]
    rcases ext.walrus_round_trip wasm with m | rt <;>
      simp [bind, Except.bind, pure, Except.pure]
  · intro ext wat wasm rt h1 h3
    simp [Config.run_one, Config.wat2wasm, Config.round_trip_through_walrus,
      Config.interp, h, bind, Except.bind, pure, Except.pure, h1, h3]

/-- C6: seed policy of Config::run: whenever an iteration continues the
loop, either run_one succeeded and the next state uses a freshly drawn
thread_rng seed, or run_one failed and the next state reuses the exact
same seed (so the seed is unchanged across fuel-decay steps). -/
theorem run_seed_policy (c : Config) (ext : Externals) (fresh : Nat → Nat)
    (timedOut : Nat → Bool) (st st1 : RunState)
    (hstep : runStep c ext fresh timedOut st = StepRes.next st1) :
    (c.run_one ext (c.gen.generate st.seed st.fuel) = Except.ok () ∧
        st1.seed = fresh st.rngIdx ∧ st1.rngIdx = st.rngIdx + 1) ∨
    ((∃ e, c.run_one ext (c.gen.generate st.seed st.fuel) = Except.error e) ∧
        st1.seed = st.seed ∧ st1.rngIdx = st.rngIdx) := by
  unfold runStep at hstep
  dsimp only at hstep
  cases hro : c.run_one ext (c.gen.generate st.seed st.fuel) with
  | ok u =>
    cases u
    rw [hro] at hstep
    dsimp only at hstep
    cases hf : st.failing with
    | some e => rw [hf] at hstep; dsimp only at hstep; exact absurd hstep (by simp)
    | none =>
      rw [hf] at hstep
      dsimp only at hstep
      cases ht : timedOut st.iter with
      | true => rw [ht] at hstep; simp at hstep
      | false =>
        rw [ht] at hstep
        simp only [Bool.false_eq_true, if_false] at hstep
        cases hstep
        left
        exact ⟨rfl, rfl, rfl⟩
  | error e =>
    rw [hro] at hstep
    dsimp only at hstep
    by_cases hf : 1 < st.fuel
    · rw [if_pos hf] at hstep
      cases hstep
      right
      exact ⟨⟨e, rfl⟩, rfl, rfl⟩
    · rw [if_neg hf] at hstep
      exact absurd hstep (by simp)

/-- C10: fuel is non-increasing across loop iterations of Config::run
and, starting from at least 1, never drops below 1; the only mutation is
fuel := fuel - fuel / 10, applied only when fuel is above 1. -/
theorem run_fuel_invariant (c : Config) (ext : Externals) (fresh : Nat → Nat)
    (timedOut : Nat → Bool) (st st1 : RunState)
    (h : 1 ≤ st.fuel) (hstep : runStep c ext fresh timedOut st = StepRes.next st1) :
    st1.fuel ≤ st.fuel ∧ 1 ≤ st1.fuel ∧
    (st1.fuel = st.fuel ∨ (1 < st.fuel ∧ st1.fuel = fuelUpdate st.fuel)) := by
  unfold runStep at hstep
  dsimp only at hstep
  cases hro : c.run_one ext (c.gen.generate st.seed st.fuel) with
  | ok u =>
    cases u
    rw [hro] at hstep
    dsimp only at hstep
    cases hf : st.failing with
    | some e => rw [hf] at hstep; dsimp only at hstep; exact absurd hstep (by simp)
    | none =>
      rw [hf] at hstep
      dsimp only at hstep
      cases ht : timedOut st.iter with
      | true => rw [ht] at hstep; simp at hstep
      | false =>
        rw [ht] at hstep
        simp only [Bool.false_eq_true, if_false] at hstep
        cases hstep
        exact ⟨le_refl _, h, Or.inl rfl⟩
  | error e =>
    rw [hro] at hstep
    dsimp only at hstep
    by_cases hf : 1 < st.fuel
    · rw [if_pos hf] at hstep
      cases hstep
      refine ⟨?_, ?_, Or.inr ⟨hf, ?_⟩⟩ <;> dsimp only [fuelUpdate] <;> omega
    · rw [if_neg hf] at hstep
      exact absurd hstep (by simp)


/-- With the always-diverging externals, run_one fails on every input. -/
theorem run_one_divergeExt (wat : String) :
    cfgC2.run_one divergeExt wat = Except.error (FuzzError.failing
      { wat := wat, expected := ("0"), actual := ("1"), generator := ("WatGen") }) := rfl

/-- Once the loop reaches fuel 9 against a persistent divergence it never
returns: the fuel update 9 - 9 / 10 = 9 makes no progress. -/
theorem runAux_stuck_at_nine (fresh : Nat → Nat) (timedOut : Nat → Bool) :
    ∀ (gas : Nat) (st : RunState), st.fuel = 9 →
      runAux cfgC2 divergeExt fresh timedOut gas st = none := by
  intro gas
  induction gas with
  | zero => intro st hf; rfl
  | succ n ih =>
    intro st hf
    unfold runAux runStep
    dsimp only
    rw [run_one_divergeExt]
    dsimp only
    rw [hf]
    rw [if_pos (by omega)]
    exact ih _ (by simp [fuelUpdate])

/-- C2: the shrink-termination scenario is false of the code: starting at
fuel 10 with a transform that diverges on every program, Config::run
never terminates (fuel goes 10 to 9, and then 9 - 9 / 10 = 9 forever), so
it never returns a test case generated at fuel 1, within any number of
iterations. -/
theorem run_shrink_never_terminates (fresh : Nat → Nat) (timedOut : Nat → Bool) (gas : Nat) :
    cfgC2.run divergeExt fresh timedOut gas = none := by
  cases gas with
  | zero => rfl
  | succ n =>
    unfold Config.run runAux runStep
    dsimp only
    rw [run_one_divergeExt]
    dsimp only
    rw [if_pos (by decide)]
    exact runAux_stuck_at_nine fresh timedOut n _ rfl


/-- C7 (amended): for every draw stream whose single arity-0 draw at
fuel 1 selects the push-constant branch, the generated body is the
constant, then the per-instruction call 0 (emitted because the constant
leaves a residual value on the stack), then the cleanup call 0 and drop,
between the fixed prologue and suffix. -/
theorem balanced_scenario_amended (seq : Nat → Nat) (h : seq 1 % 2 = 0) :
    WatGen.generateWith seq 1 =
      some (watPre ++ codeBalancedBody (i32val (seq 2)) ++ watSuf) := by
  simp [WatGen.generateWith, WatGen.gen_instructions, WatGen.genLoop, WatGen.op,
    WatGen.op_0, WatGen.cleanup, WatGen.instr, WatGen.instr_imm, WatGen.preamble,
    WatGen.postamble, Rng.genRange, Rng.genI32, Nat.mod_one, h, watPre, watSuf,
    codeBalancedBody, String.append_assoc, String.empty_append]
  have key : ("(module\n  (import \"host\" \"print\" (func (param i32) (result i32)))\n  (func (export \"$f\")\n    i32.const" : String) ++ " " =
      "(module\n  (import \"host\" \"print\" (func (param i32) (result i32)))\n  (func (export \"$f\")\n" ++ "    i32.const " := rfl
  rw [← String.append_assoc, key, String.append_assoc]


/-- Witness for C5: concrete externals whose round trip changes the
observed trace. -/
theorem run_one_oracle_sound_witness :
    (cfgW.run_one divergeExt ("w") = Except.ok () ↔ ("0" : String) = "1") ∧
    (("0" : String) ≠ "1" →
      cfgW.run_one divergeExt ("w") = Except.error (FuzzError.failing
        { wat := "w", expected := "0", actual := "1", generator := cfgW.gen.NAME })) :=
  run_one_oracle_sound cfgW divergeExt ("w") [0] [1] ("0") ("1") rfl rfl rfl rfl

/-- Witness for C8 at the WasmOptTtf generator configuration. -/
theorem no_interp_never_diverges_witness :
    (∀ (ext : Externals) (wasm : List Nat),
        (Config.new wasmOptTtfG).interp ext wasm = Except.ok ("")) ∧
    (∀ (ext : Externals) (wat : String) (tc : FailingTestCase),
        (Config.new wasmOptTtfG).run_one ext wat ≠
          Except.error (FuzzError.failing tc)) ∧
    (∀ (ext : Externals) (wat : String) (wasm rt : List Nat),
        ext.wat2wasm wat = Except.ok wasm →
        ext.walrus_round_trip wasm = Except.ok rt →
        (Config.new wasmOptTtfG).run_one ext wat = Except.ok ()) :=
  no_interp_never_diverges (Config.new wasmOptTtfG) rfl

/-- Witness for C6: a succeeding iteration that continues draws the fresh
seed. -/
theorem run_seed_policy_witness :
    (cfgW.run_one okExt (cfgW.gen.generate stW0.seed stW0.fuel) = Except.ok () ∧
        stW1.seed = freshW stW0.rngIdx ∧ stW1.rngIdx = stW0.rngIdx + 1) ∨
    ((∃ e, cfgW.run_one okExt (cfgW.gen.generate stW0.seed stW0.fuel) = Except.error e) ∧
        stW1.seed = stW0.seed ∧ stW1.rngIdx = stW0.rngIdx) :=
  run_seed_policy cfgW okExt freshW (fun _ => false) stW0 stW1 rfl

/-- Witness for C10: a failing iteration at fuel 10 continues at fuel 9. -/
theorem run_fuel_invariant_witness :
    stW2.fuel ≤ stW0.fuel ∧ 1 ≤ stW2.fuel ∧
    (stW2.fuel = stW0.fuel ∨ (1 < stW0.fuel ∧ stW2.fuel = fuelUpdate stW0.fuel)) :=
  run_fuel_invariant cfgW divergeExt freshW (fun _ => false) stW0 stW2 (by decide) rfl

/-- C7 fails on the code as stated: with the draw stream that selects the
push-constant branch at fuel 1, the generated text is the prologue, the
body with the extra per-instruction call 0, and the suffix, which differs
from the claimed body of just the constant plus cleanup call 0 and
drop. -/
theorem balanced_scenario_counterexample :
    ((fun _ => 0 : Nat → Nat) 1 % 2 = 0) ∧
    WatGen.generateWith (fun _ => 0) 1 =
      some (watPre ++ codeBalancedBody 0 ++ watSuf) ∧
    WatGen.generateWith (fun _ => 0) 1 ≠
      some (watPre ++ specBalancedBody 0 ++ watSuf) := by
  refine ⟨rfl, by decide, by decide⟩

/-- Witness for the amended C7 at the stream of even numbers, whose
constant draw is 4. -/
theorem balanced_scenario_amended_witness :
    WatGen.generateWith (fun i => 2 * i) 1 =
      some (watPre ++ codeBalancedBody (i32val 4) ++ watSuf) :=
  balanced_scenario_amended (fun i => 2 * i) (by norm_num)

end WalrusFuzz
